import Mathlib

/-!
# Verification of the Machine-LLM client-side state management

Shallow embedding of `src/types.ts` and the `App` component handlers of
`src/App.tsx`: the application state, the four event handlers
(`handleGenerateCurriculum`, `handleSelectLesson`, `handleSendMessage`,
`handleTakeQuiz`) and the two inline UI handlers (home click, quiz-modal
close).  External service calls (`generateCourseCurriculum`,
`streamChatResponse`, `generateQuizForModule`) are modelled by their
outcomes passed as parameters: an `Except Unit α` for a call that either
returns a value or throws, and the list of chunks delivered to the
streaming callback.  Fresh `crypto.randomUUID()` values are passed as
string parameters.  Each handler returns its final state together with
observation flags: whether `alert` was called and whether the service
was invoked.  A JavaScript runtime error from unguarded indexing is the
`none` branch of an `Option` (when uncaught) or routed to the `catch`
branch (when it happens inside a `try`), exactly as in the source.
-/

namespace MachineLLM

/-- The `role` union type of `Message` in `src/types.ts`. -/
inductive Role where
  | user
  | model
  deriving DecidableEq, Repr

/-- `Lesson` from `src/types.ts`. -/
structure Lesson where
  title : String
  description : String
  deriving DecidableEq, Repr

/-- `Module` from `src/types.ts`. -/
structure Module where
  title : String
  lessons : List Lesson
  deriving DecidableEq, Repr

/-- `Course` from `src/types.ts`. -/
structure Course where
  id : String
  topic : String
  title : String
  description : String
  modules : List Module
  deriving DecidableEq, Repr

/-- `Message` from `src/types.ts`.  The optional `isStreaming?` field is a
`Bool`, with the absent/undefined case represented by `false`. -/
structure Message where
  id : String
  role : Role
  content : String
  isStreaming : Bool
  deriving DecidableEq, Repr

/-- `QuizQuestion` from `src/types.ts`. -/
structure QuizQuestion where
  question : String
  options : List String
  correctAnswerIndex : Nat
  explanation : String
  deriving DecidableEq, Repr

/-- `Quiz` from `src/types.ts`. -/
structure Quiz where
  title : String
  questions : List QuizQuestion
  deriving DecidableEq, Repr

/-- `ViewState` from `src/types.ts`: the union of `landing`, `course` and `quiz`. -/
inductive ViewState where
  | landing
  | course
  | quiz
  deriving DecidableEq, Repr

/-- `AppState` from `src/types.ts`. -/
structure AppState where
  currentView : ViewState
  courses : List Course
  activeCourseId : Option String
  activeModuleIndex : Option Nat
  activeLessonIndex : Option Nat
  chatHistory : List Message
  activeQuiz : Option Quiz
  isLoading : Bool
  deriving DecidableEq, Repr

/-- The initial state passed to `useState` in `App` (`src/App.tsx` lines 11-20). -/
def initialState : AppState :=
  { currentView := ViewState.landing
    courses := []
    activeCourseId := none
    activeModuleIndex := none
    activeLessonIndex := none
    chatHistory := []
    activeQuiz := none
    isLoading := false }

/-- `activeCourse` (`src/App.tsx` line 25):
`state.courses.find(c => c.id === state.activeCourseId)`. -/
def activeCourse (s : AppState) : Option Course :=
  s.courses.find? (fun c => some c.id == s.activeCourseId)

/-- `activeModule` (`src/App.tsx` line 26): `activeCourse.modules[idx]` when an
active course and a non-null module index exist; JavaScript out-of-bounds
indexing yields `undefined`, i.e. `none`. -/
def activeModule (s : AppState) : Option Module :=
  match activeCourse s, s.activeModuleIndex with
  | some course, some i => course.modules[i]?
  | _, _ => none

/-- `activeLesson` (`src/App.tsx` line 27). -/
def activeLesson (s : AppState) : Option Lesson :=
  match activeModule s, s.activeLessonIndex with
  | some module, some i => module.lessons[i]?
  | _, _ => none

/-- The greeting template literal of `handleGenerateCurriculum`
(`src/App.tsx` line 51), with `l0 = course.modules[0].lessons[0]`. -/
def greetingText (course : Course) (l0 : Lesson) : String :=
  "Welcome to **" ++ course.title ++ "**! I\x27m your AI tutor. We\x27ll start with **"
    ++ l0.title ++ "**. \n\n" ++ l0.description ++ "\n\nAsk me anything to begin!"

/-- Evaluation of the greeting content: `course.modules[0].lessons[0]` is read
without a guard, so a missing first module or first lesson is a thrown
`TypeError`, the `none` branch here. -/
def greetingContent (course : Course) : Option String :=
  match course.modules[0]? with
  | none => none
  | some m0 =>
    match m0.lessons[0]? with
    | none => none
    | some l0 => some (greetingText course l0)

/-- JavaScript `String.prototype.trim` as used in the guard
`if (!topicInput.trim()) return` (`src/App.tsx` line 31): strip leading and
trailing whitespace.  Defined over the character list so that it is
kernel-executable (the builtin `String.trim` is defined by well-founded
recursion on byte positions and does not reduce). -/
def jsTrim (s : String) : String :=
  ⟨((s.data.dropWhile Char.isWhitespace).reverse.dropWhile Char.isWhitespace).reverse⟩

/-- Result of a run of `handleGenerateCurriculum`: final state, whether
`alert` fired, and whether `generateCourseCurriculum` was invoked. -/
structure GenOutcome where
  state : AppState
  alerted : Bool
  apiCalled : Bool
  deriving DecidableEq, Repr

/-- `handleGenerateCurriculum` (`src/App.tsx` lines 29-60).
`result` is the outcome of `await generateCourseCurriculum(topicInput)` and
`greetingId` the `crypto.randomUUID()` of the greeting message.  The guard
returns when the trimmed topic is empty.  On success the first `setState`
appends the course, activates it, switches the view, resets the indices and
chat history and clears `isLoading`; building the greeting then dereferences
`course.modules[0].lessons[0]` inside the `try`, so when that indexing fails
the `catch` runs (alert, `isLoading := false`) with the first update already
applied; otherwise the second `setState` installs the greeting as the sole
chat message. -/
def handleGenerateCurriculum (s : AppState) (topicInput : String)
    (result : Except Unit Course) (greetingId : String) : GenOutcome :=
  if jsTrim topicInput = "" then
    { state := s, alerted := false, apiCalled := false }
  else
    match result with
    | Except.error _ =>
      { state := { s with isLoading := false }, alerted := true, apiCalled := true }
    | Except.ok course =>
      let s2 : AppState :=
        { s with
          courses := s.courses ++ [course]
          activeCourseId := some course.id
          currentView := ViewState.course
          activeModuleIndex := some 0
          activeLessonIndex := some 0
          chatHistory := []
          isLoading := false }
      match greetingContent course with
      | none =>
        { state := { s2 with isLoading := false }, alerted := true, apiCalled := true }
      | some content =>
        { state :=
            { s2 with
              chatHistory :=
                [{ id := greetingId, role := Role.model, content := content,
                   isStreaming := false }] }
          alerted := false, apiCalled := true }

/-- The context-switch template literal of `handleSelectLesson`
(`src/App.tsx` line 82). -/
def contextText (module : Module) (lesson : Lesson) : String :=
  "Moving on to **" ++ module.title ++ ": " ++ lesson.title ++ "**.\n\n"
    ++ lesson.description ++ "\n\nReady?"

/-- Result of a run of `handleSelectLesson`: the resting state once any
queued `setState` updates have been applied, and whether the run raised an
uncaught `TypeError`. -/
structure SelectOutcome where
  state : AppState
  threw : Bool
  deriving DecidableEq, Repr

/-- `handleSelectLesson` (`src/App.tsx` lines 62-85).  With no active course
the guard returns.  When `activeCourse.modules[moduleIndex]` is `undefined`,
reading `.lessons` of it (line 66) throws before any `setState`, so the
state is unchanged.  When the module exists but
`module.lessons[lessonIndex]` is `undefined`, the first `setState`
(lines 68-76) has already committed the two index updates before building
the context message throws on `lesson.title` (line 82): the resting state
carries the new indices but no appended message.  When both exist, the two
`setState` calls set the indices and append the context-switch message. -/
def handleSelectLesson (s : AppState) (moduleIndex lessonIndex : Nat)
    (msgId : String) : SelectOutcome :=
  match activeCourse s with
  | none => { state := s, threw := false }
  | some course =>
    match course.modules[moduleIndex]? with
    | none => { state := s, threw := true }
    | some module =>
      match module.lessons[lessonIndex]? with
      | none =>
        { state :=
            { s with
              activeModuleIndex := some moduleIndex
              activeLessonIndex := some lessonIndex }
          threw := true }
      | some lesson =>
        { state :=
            { s with
              activeModuleIndex := some moduleIndex
              activeLessonIndex := some lessonIndex
              chatHistory :=
                s.chatHistory ++
                  [{ id := msgId, role := Role.model,
                     content := contextText module lesson, isStreaming := false }] }
          threw := false }

/-- Result of a run of `handleTakeQuiz`. -/
structure QuizOutcome where
  state : AppState
  alerted : Bool
  apiCalled : Bool
  deriving DecidableEq, Repr

/-- `handleTakeQuiz` (`src/App.tsx` lines 142-159).  `result` is the outcome
of `await generateQuizForModule(module.title, activeCourse.topic)`.  With no
active course the guard returns.  `activeCourse.modules[moduleIndex]` is read
without a bound check before the `try`, but its `.title` is only dereferenced
inside the `try`, so an out-of-bounds index lands in the `catch` (alert,
`isLoading := false`) without the service being called. -/
def handleTakeQuiz (s : AppState) (moduleIndex : Nat)
    (result : Except Unit Quiz) : QuizOutcome :=
  match activeCourse s with
  | none => { state := s, alerted := false, apiCalled := false }
  | some course =>
    match course.modules[moduleIndex]? with
    | none =>
      { state := { s with isLoading := false }, alerted := true, apiCalled := false }
    | some _ =>
      match result with
      | Except.error _ =>
        { state := { s with isLoading := false }, alerted := true, apiCalled := true }
      | Except.ok quiz =>
        { state := { s with activeQuiz := some quiz, isLoading := false }
          alerted := false, apiCalled := true }

/-- The fresh user message of `handleSendMessage` (`src/App.tsx` line 90). -/
def mkUserMsg (msgId text : String) : Message :=
  { id := msgId, role := Role.user, content := text, isStreaming := false }

/-- The placeholder model message of `handleSendMessage`
(`src/App.tsx` line 95): empty content, `isStreaming: true`. -/
def initialModelMsg (modelMsgId : String) : Message :=
  { id := modelMsgId, role := Role.model, content := "", isStreaming := true }

/-- One `setState` of the streaming callback (`src/App.tsx` lines 121-126):
replace the content of the message with id `modelMsgId` by the accumulated
response. -/
def updateContent (modelMsgId fullResponse : String)
    (hist : List Message) : List Message :=
  hist.map fun msg =>
    if msg.id = modelMsgId then { msg with content := fullResponse } else msg

/-- The `setState` of the `finally` block (`src/App.tsx` lines 133-138): clear the
`isStreaming` flag of the message with id `modelMsgId`. -/
def clearStreaming (modelMsgId : String) (hist : List Message) : List Message :=
  hist.map fun msg =>
    if msg.id = modelMsgId then { msg with isStreaming := false } else msg

/-- Iterated streaming callback (`src/App.tsx` lines 119-127): for each chunk
the handler extends `fullResponse` (here `acc`) and rewrites the model
content of the model message to the accumulated string. -/
def applyChunks (modelMsgId acc : String) (chunks : List String)
    (hist : List Message) : List Message :=
  match chunks with
  | [] => hist
  | c :: rest =>
    applyChunks modelMsgId (acc ++ c) rest (updateContent modelMsgId (acc ++ c) hist)

/-- The concatenation `c1 ++ ... ++ ck` of the delivered chunks. -/
def joinChunks : List String → String
  | [] => ""
  | c :: rest => c ++ joinChunks rest

/-- Chat history after the user message and placeholder are appended and the
streaming callback has run on `chunks`. -/
def streamedHistory (hist : List Message) (text userMsgId modelMsgId : String)
    (chunks : List String) : List Message :=
  applyChunks modelMsgId "" chunks
    (hist ++ [mkUserMsg userMsgId text, initialModelMsg modelMsgId])

/-- The state of `handleSendMessage` observed right after the streaming
callback has been invoked on `chunks` (before the `finally` block), used to
state the mid-stream claim. -/
def sendMessageMid (s : AppState) (text userMsgId modelMsgId : String)
    (chunks : List String) : AppState :=
  match activeCourse s, activeModule s, activeLesson s with
  | some _, some _, some _ =>
    { s with chatHistory := streamedHistory s.chatHistory text userMsgId modelMsgId chunks }
  | _, _, _ => s

/-- Result of a run of `handleSendMessage`: final state, the `isStreaming`
`useState` flag while `streamChatResponse` is awaited and after the run, and
the `alert`/service observation flags. -/
structure SendOutcome where
  state : AppState
  isStreamingDuringCall : Bool
  isStreamingAfter : Bool
  alerted : Bool
  apiCalled : Bool
  deriving DecidableEq, Repr

/-- `handleSendMessage` (`src/App.tsx` lines 87-140).  `flagIn` is the
current value of the `isStreaming` flag, `chunks` the chunks the service
delivered to the callback, and `streamFails` whether `streamChatResponse`
then rejected.  The guard returns unless an active course, module and lesson
all exist.  Otherwise the user message and streaming placeholder are
appended, `setIsStreaming(true)` runs, the callback accumulates the chunks,
and the `catch` only logs — no alert and no state change — while the
`finally` runs in every case: `setIsStreaming(false)` and clearing the
clearing the `isStreaming` flag of the placeholder. -/
def handleSendMessage (s : AppState) (flagIn : Bool)
    (text userMsgId modelMsgId : String) (chunks : List String)
    (streamFails : Bool) : SendOutcome :=
  match activeCourse s, activeModule s, activeLesson s with
  | some _, some _, some _ =>
    { state :=
        { s with
          chatHistory :=
            clearStreaming modelMsgId
              (streamedHistory s.chatHistory text userMsgId modelMsgId chunks) }
      isStreamingDuringCall := true
      isStreamingAfter := false
      alerted := false
      apiCalled := true }
  | _, _, _ =>
    { state := s, isStreamingDuringCall := flagIn, isStreamingAfter := flagIn,
      alerted := false, apiCalled := false }

/-- One user-visible transition of the `App` component: the four handlers
plus the inline `onHomeClick` (`src/App.tsx` line 163) and the quiz-modal
`onClose` (`src/App.tsx` line 168). -/
inductive Step : AppState → AppState → Prop where
  | generate (s : AppState) (topic : String) (result : Except Unit Course)
      (greetingId : String) :
      Step s (handleGenerateCurriculum s topic result greetingId).state
  | selectLesson (s : AppState) (moduleIndex lessonIndex : Nat) (msgId : String) :
      Step s (handleSelectLesson s moduleIndex lessonIndex msgId).state
  | sendMessage (s : AppState) (flagIn : Bool) (text userMsgId modelMsgId : String)
      (chunks : List String) (streamFails : Bool) :
      Step s (handleSendMessage s flagIn text userMsgId modelMsgId chunks streamFails).state
  | takeQuiz (s : AppState) (moduleIndex : Nat) (result : Except Unit Quiz) :
      Step s (handleTakeQuiz s moduleIndex result).state
  | homeClick (s : AppState) : Step s { s with currentView := ViewState.landing }
  | closeQuiz (s : AppState) : Step s { s with activeQuiz := none }

/-- States reachable from the initial state by the handlers of the app. -/
inductive Reachable : AppState → Prop where
  | init : Reachable initialState
  | step {s t : AppState} : Reachable s → Step s t → Reachable t

/-! ## Concrete fixtures used by witnesses and counterexamples -/

/-- A concrete lesson. -/
def demoLesson : Lesson := { title := "L1", description := "D1" }

/-- A concrete module with one lesson. -/
def demoModule : Module := { title := "M1", lessons := [demoLesson] }

/-- A concrete course with one module. -/
def demoCourse : Course :=
  { id := "c1", topic := "ml", title := "ML Basics", description := "d",
    modules := [demoModule] }

/-- A concrete course whose `modules` list is empty. -/
def emptyCourse : Course :=
  { id := "c0", topic := "ml", title := "Void", description := "d", modules := [] }

/-- A concrete quiz. -/
def demoQuiz : Quiz :=
  { title := "Q1",
    questions := [{ question := "q", options := ["a", "b"], correctAnswerIndex := 0,
                    explanation := "e" }] }

/-- A concrete state with `demoCourse` active and lesson (0,0) selected. -/
def demoState : AppState :=
  { currentView := ViewState.course
    courses := [demoCourse]
    activeCourseId := some "c1"
    activeModuleIndex := some 0
    activeLessonIndex := some 0
    chatHistory := []
    activeQuiz := none
    isLoading := false }

/-! ## Helper lemmas about the streaming callback -/

theorem updateContent_append (modelMsgId c : String) (a b : List Message) :
    updateContent modelMsgId c (a ++ b) =
      updateContent modelMsgId c a ++ updateContent modelMsgId c b :=
  List.map_append _ a b

theorem updateContent_of_fresh (modelMsgId c : String) (l : List Message)
    (h : ∀ msg ∈ l, msg.id ≠ modelMsgId) : updateContent modelMsgId c l = l := by
  induction l with
  | nil => rfl
  | cons m rest ih =>
    have hm : m.id ≠ modelMsgId := h m (List.mem_cons_self m rest)
    have hr := ih (fun msg hmem => h msg (List.mem_cons_of_mem m hmem))
    simp only [updateContent, List.map_cons, if_neg hm] at *
    rw [hr]

/-- Running the accumulated-content updates over a history whose only message
with the target id sits at the end and currently holds the accumulator. -/
theorem applyChunks_spec (modelMsgId : String) (r : Role) (b : Bool)
    (chunks : List String) :
    ∀ (acc : String) (pre : List Message), (∀ msg ∈ pre, msg.id ≠ modelMsgId) →
      applyChunks modelMsgId acc chunks
          (pre ++ [{ id := modelMsgId, role := r, content := acc, isStreaming := b }]) =
        pre ++ [{ id := modelMsgId, role := r, content := acc ++ joinChunks chunks,
                  isStreaming := b }] := by
  induction chunks with
  | nil =>
    intro acc pre _
    simp [applyChunks, joinChunks, String.append_empty]
  | cons c rest ih =>
    intro acc pre hfresh
    have h1 : updateContent modelMsgId (acc ++ c)
        (pre ++ [{ id := modelMsgId, role := r, content := acc, isStreaming := b }]) =
        pre ++ [{ id := modelMsgId, role := r, content := acc ++ c, isStreaming := b }] := by
      rw [updateContent_append, updateContent_of_fresh _ _ pre hfresh]
      simp [updateContent]
    simp only [applyChunks]
    rw [h1, ih (acc ++ c) pre hfresh, String.append_assoc]
    rfl

/-- Explicit form of the chat history after the whole stream has been
consumed, assuming the fresh model-message id collides with nothing. -/
theorem streamedHistory_eq (hist : List Message)
    (text userMsgId modelMsgId : String) (chunks : List String)
    (hfresh : ∀ msg ∈ hist, msg.id ≠ modelMsgId) (huid : userMsgId ≠ modelMsgId) :
    streamedHistory hist text userMsgId modelMsgId chunks =
      hist ++ [mkUserMsg userMsgId text,
        { id := modelMsgId, role := Role.model, content := joinChunks chunks,
          isStreaming := true }] := by
  have hfresh2 : ∀ msg ∈ hist ++ [mkUserMsg userMsgId text], msg.id ≠ modelMsgId := by
    intro msg hmem
    rcases List.mem_append.1 hmem with h | h
    · exact hfresh msg h
    · simp only [List.mem_singleton] at h
      subst h
      exact huid
  have hsplit : hist ++ [mkUserMsg userMsgId text, initialModelMsg modelMsgId] =
      (hist ++ [mkUserMsg userMsgId text]) ++
        [{ id := modelMsgId, role := Role.model, content := "", isStreaming := true }] := by
    simp [initialModelMsg]
  unfold streamedHistory
  rw [hsplit, applyChunks_spec modelMsgId Role.model true chunks "" _ hfresh2,
    String.empty_append]
  simp

/-- Content updates preserve ids and streaming flags of every element. -/
theorem mem_applyChunks (modelMsgId : String) (chunks : List String) :
    ∀ (acc : String) (hist : List Message),
      ∀ msg ∈ applyChunks modelMsgId acc chunks hist,
        ∃ m ∈ hist, msg.id = m.id ∧ msg.isStreaming = m.isStreaming := by
  induction chunks with
  | nil =>
    intro acc hist msg hmem
    exact ⟨msg, hmem, rfl, rfl⟩
  | cons c rest ih =>
    intro acc hist msg hmem
    simp only [applyChunks] at hmem
    obtain ⟨m, hm, hid, hstr⟩ :=
      ih (acc ++ c) (updateContent modelMsgId (acc ++ c) hist) msg hmem
    simp only [updateContent, List.mem_map] at hm
    obtain ⟨m0, hm0, rfl⟩ := hm
    refine ⟨m0, hm0, ?_, ?_⟩
    · rw [hid]
      by_cases h0 : m0.id = modelMsgId <;> simp [h0]
    · rw [hstr]
      by_cases h0 : m0.id = modelMsgId <;> simp [h0]

/-- After the `finally` update, every message whose streaming flag could have
been `true` only through the target id has the flag cleared. -/
theorem clearStreaming_all (modelMsgId : String) (l : List Message)
    (h : ∀ msg ∈ l, msg.id ≠ modelMsgId → msg.isStreaming = false) :
    ∀ msg ∈ clearStreaming modelMsgId l, msg.isStreaming = false := by
  intro msg hmem
  simp only [clearStreaming, List.mem_map] at hmem
  obtain ⟨m, hm, rfl⟩ := hmem
  by_cases hid : m.id = modelMsgId
  · simp [hid]
  · simp [hid, h m hm hid]

/-! ## Claim theorems -/

/-- C1 (counterexample): the claim fails when the service returns a course
with no modules.  `handleGenerateCurriculum` still appends the course and
switches the view, but building the greeting throws on
`course.modules[0].lessons[0]`, so the chat history ends up empty — not a
single greeting message — and the error alert fires. -/
theorem generate_empty_course_no_greeting :
    (handleGenerateCurriculum initialState "ml" (Except.ok emptyCourse) "g1").state.chatHistory
        = [] ∧
    ((handleGenerateCurriculum initialState "ml" (Except.ok emptyCourse) "g1").state.chatHistory.length
        = 1 → False) ∧
    (handleGenerateCurriculum initialState "ml" (Except.ok emptyCourse) "g1").alerted = true := by
  decide

/-- C1 (amended): whenever the service returns a course whose first module
exists and has a first lesson (and the topic guard passed), the resulting
state has the course appended to the end of `courses`, `activeCourseId`
equal to the id of the new course, `currentView` equal to `course`, both indices
`0`, `isLoading` `false`, and `chatHistory` consisting of exactly one
model-role greeting message. -/
theorem generate_success_state (s : AppState) (topic greetingId : String)
    (course : Course) (m0 : Module) (l0 : Lesson) (ht : jsTrim topic ≠ "")
    (hm : course.modules[0]? = some m0) (hl : m0.lessons[0]? = some l0) :
    (handleGenerateCurriculum s topic (Except.ok course) greetingId).state =
      { s with
        courses := s.courses ++ [course]
        activeCourseId := some course.id
        currentView := ViewState.course
        activeModuleIndex := some 0
        activeLessonIndex := some 0
        chatHistory := [{ id := greetingId, role := Role.model,
                          content := greetingText course l0, isStreaming := false }]
        isLoading := false } ∧
    (handleGenerateCurriculum s topic (Except.ok course) greetingId).state.chatHistory.length
        = 1 ∧
    ∀ msg ∈ (handleGenerateCurriculum s topic (Except.ok course) greetingId).state.chatHistory,
      msg.role = Role.model := by
  have hg : greetingContent course = some (greetingText course l0) := by
    unfold greetingContent
    simp only [hm, hl]
  have hrun : (handleGenerateCurriculum s topic (Except.ok course) greetingId).state =
      { s with
        courses := s.courses ++ [course]
        activeCourseId := some course.id
        currentView := ViewState.course
        activeModuleIndex := some 0
        activeLessonIndex := some 0
        chatHistory := [{ id := greetingId, role := Role.model,
                          content := greetingText course l0, isStreaming := false }]
        isLoading := false } := by
    unfold handleGenerateCurriculum
    rw [if_neg ht]
    simp only [hg]
  refine ⟨hrun, ?_, ?_⟩
  · rw [hrun]
    rfl
  · intro msg hmem
    rw [hrun] at hmem
    simp only [List.mem_singleton] at hmem
    subst hmem
    rfl

/-- C1 witness: the amended theorem applied to the concrete `demoCourse`. -/
theorem generate_success_state_witness :
    (handleGenerateCurriculum demoState "nn" (Except.ok demoCourse) "g1").state =
      { demoState with
        courses := demoState.courses ++ [demoCourse]
        activeCourseId := some demoCourse.id
        currentView := ViewState.course
        activeModuleIndex := some 0
        activeLessonIndex := some 0
        chatHistory := [{ id := "g1", role := Role.model,
                          content := greetingText demoCourse demoLesson,
                          isStreaming := false }]
        isLoading := false } :=
  (generate_success_state demoState "nn" "g1" demoCourse demoModule demoLesson
    (by decide) (by decide) (by decide)).1

/-- C2: after the streaming callback has consumed chunks `c1..ck`, the chat
history is exactly the old history, then the appended user message carrying
the sent text, then the model message with id `modelMsgId` whose content is
the concatenation of the chunks — so every other message is unchanged in
content, id, role and position. -/
theorem sendMessage_mid_stream (s : AppState) (text userMsgId modelMsgId : String)
    (chunks : List String) (course : Course) (module : Module) (lesson : Lesson)
    (hc : activeCourse s = some course) (hm : activeModule s = some module)
    (hl : activeLesson s = some lesson)
    (hfresh : ∀ msg ∈ s.chatHistory, msg.id ≠ modelMsgId)
    (huid : userMsgId ≠ modelMsgId) :
    (sendMessageMid s text userMsgId modelMsgId chunks).chatHistory =
      s.chatHistory ++ [mkUserMsg userMsgId text,
        { id := modelMsgId, role := Role.model, content := joinChunks chunks,
          isStreaming := true }] := by
  unfold sendMessageMid
  simp only [hc, hm, hl]
  exact streamedHistory_eq s.chatHistory text userMsgId modelMsgId chunks hfresh huid

/-- C2 witness: two concrete chunks accumulate into one model message. -/
theorem sendMessage_mid_stream_witness :
    (sendMessageMid demoState "hi" "u1" "m1" ["an", "swer"]).chatHistory =
      demoState.chatHistory ++ [mkUserMsg "u1" "hi",
        { id := "m1", role := Role.model, content := joinChunks ["an", "swer"],
          isStreaming := true }] :=
  sendMessage_mid_stream demoState "hi" "u1" "m1" ["an", "swer"]
    demoCourse demoModule demoLesson (by decide) (by decide) (by decide)
    (by decide) (by decide)

/-- C3 (counterexample): the claim fails for `handleSendMessage` — when
`streamChatResponse` rejects, the `catch` block only logs to the console,
so the run raises no alert even though the service was called and threw. -/
theorem sendMessage_error_no_alert :
    (handleSendMessage demoState false "hi" "u1" "m1" [] true).apiCalled = true ∧
    (handleSendMessage demoState false "hi" "u1" "m1" [] true).alerted = false := by
  exact ⟨rfl, rfl⟩

/-- C3 (amended): an error in `handleGenerateCurriculum` or `handleTakeQuiz`
surfaces as a user-facing alert, but `handleSendMessage` never alerts — a
streaming error is only logged. -/
theorem alert_on_error_per_handler (s : AppState) (topic greetingId : String)
    (qresult : Except Unit Quiz) (course : Course) (moduleIndex : Nat)
    (flagIn : Bool) (text userMsgId modelMsgId : String) (chunks : List String)
    (streamFails : Bool) :
    (jsTrim topic ≠ "" →
      (handleGenerateCurriculum s topic (Except.error ()) greetingId).alerted = true) ∧
    (activeCourse s = some course → qresult = Except.error () →
      (handleTakeQuiz s moduleIndex qresult).alerted = true) ∧
    (handleSendMessage s flagIn text userMsgId modelMsgId chunks streamFails).alerted
      = false := by
  refine ⟨?_, ?_, ?_⟩
  · intro ht
    unfold handleGenerateCurriculum
    rw [if_neg ht]
  · intro hc hq
    subst hq
    unfold handleTakeQuiz
    simp only [hc]
    cases hmod : course.modules[moduleIndex]? <;> simp only [hmod]
  · unfold handleSendMessage
    cases hac : activeCourse s <;> cases ham : activeModule s <;>
      cases hal : activeLesson s <;> rfl

/-- C3 witness: the amended theorem at concrete inputs. -/
theorem alert_on_error_per_handler_witness :
    (handleGenerateCurriculum demoState "nn" (Except.error ()) "g1").alerted = true ∧
    (handleTakeQuiz demoState 5 (Except.error ())).alerted = true ∧
    (handleSendMessage demoState false "hi" "u1" "m1" [] true).alerted = false :=
  ⟨(alert_on_error_per_handler demoState "nn" "g1" (Except.error ()) demoCourse 5
      false "hi" "u1" "m1" [] true).1 (by decide),
   (alert_on_error_per_handler demoState "nn" "g1" (Except.error ()) demoCourse 5
      false "hi" "u1" "m1" [] true).2.1 (by decide) rfl,
   (alert_on_error_per_handler demoState "nn" "g1" (Except.error ()) demoCourse 5
      false "hi" "u1" "m1" [] true).2.2⟩

/-- C4: selecting an existing lesson `(moduleIndex, lessonIndex)` of the
active course sets exactly the two indices and appends exactly one
model-role context-switch message to the end of the chat history, leaving
`currentView`, `courses`, `activeCourseId`, `activeQuiz` and `isLoading`
unchanged. -/
theorem selectLesson_updates (s : AppState) (moduleIndex lessonIndex : Nat)
    (msgId : String) (course : Course) (module : Module) (lesson : Lesson)
    (hc : activeCourse s = some course)
    (hm : course.modules[moduleIndex]? = some module)
    (hl : module.lessons[lessonIndex]? = some lesson) :
    handleSelectLesson s moduleIndex lessonIndex msgId =
      { state :=
          { s with
            activeModuleIndex := some moduleIndex
            activeLessonIndex := some lessonIndex
            chatHistory := s.chatHistory ++
              [{ id := msgId, role := Role.model,
                 content := contextText module lesson, isStreaming := false }] }
        threw := false } := by
  unfold handleSelectLesson
  simp only [hc, hm, hl]

/-- C4 witness: selecting lesson (0, 0) of the concrete course. -/
theorem selectLesson_updates_witness :
    handleSelectLesson demoState 0 0 "x1" =
      { state :=
          { demoState with
            activeModuleIndex := some 0
            activeLessonIndex := some 0
            chatHistory := demoState.chatHistory ++
              [{ id := "x1", role := Role.model,
                 content := contextText demoModule demoLesson, isStreaming := false }] }
        threw := false } :=
  selectLesson_updates demoState 0 0 "x1" demoCourse demoModule demoLesson
    (by decide) (by decide) (by decide)

/-- C5: with an active course, a successful quiz generation stores exactly
the generated quiz and clears `isLoading`, every other field unchanged;
a failed one (service error, or out-of-bounds module index that throws
before the call) leaves `activeQuiz` unchanged with `isLoading` `false`. -/
theorem takeQuiz_state (s : AppState) (moduleIndex : Nat) (course : Course)
    (result : Except Unit Quiz) (hc : activeCourse s = some course) :
    (∀ module quiz, course.modules[moduleIndex]? = some module →
      result = Except.ok quiz →
      (handleTakeQuiz s moduleIndex result).state =
        { s with activeQuiz := some quiz, isLoading := false }) ∧
    ((course.modules[moduleIndex]? = none ∨ result = Except.error ()) →
      (handleTakeQuiz s moduleIndex result).state.activeQuiz = s.activeQuiz ∧
      (handleTakeQuiz s moduleIndex result).state.isLoading = false) := by
  constructor
  · intro module quiz hmod hres
    subst hres
    unfold handleTakeQuiz
    simp only [hc, hmod]
  · intro hfail
    unfold handleTakeQuiz
    simp only [hc]
    rcases hfail with hmod | hres
    · simp only [hmod]
      exact ⟨trivial, trivial⟩
    · subst hres
      cases hmod : course.modules[moduleIndex]? <;> simp only [hmod] <;>
        exact ⟨trivial, trivial⟩

/-- C5 witness: a successful quiz generation on the concrete state. -/
theorem takeQuiz_state_witness :
    (handleTakeQuiz demoState 0 (Except.ok demoQuiz)).state =
      { demoState with activeQuiz := some demoQuiz, isLoading := false } :=
  (takeQuiz_state demoState 0 demoCourse (Except.ok demoQuiz) (by decide)).1
    demoModule demoQuiz (by decide) rfl

/-- C6: a run of `handleSendMessage` that reaches the service has the
`isStreaming` flag `true` during the call; after any terminating run —
stream success or stream failure alike — the flag is `false` again and,
provided no message of the starting history was mid-stream, no message of
the final chat history has `isStreaming` set. -/
theorem sendMessage_single_stream (s : AppState) (flagIn : Bool)
    (text userMsgId modelMsgId : String) (chunks : List String)
    (streamFails : Bool) (course : Course) (module : Module) (lesson : Lesson)
    (hc : activeCourse s = some course) (hm : activeModule s = some module)
    (hl : activeLesson s = some lesson)
    (hclean : ∀ msg ∈ s.chatHistory, msg.isStreaming = false) :
    (handleSendMessage s flagIn text userMsgId modelMsgId chunks
        streamFails).isStreamingDuringCall = true ∧
    (handleSendMessage s flagIn text userMsgId modelMsgId chunks
        streamFails).isStreamingAfter = false ∧
    ∀ msg ∈ (handleSendMessage s flagIn text userMsgId modelMsgId chunks
        streamFails).state.chatHistory, msg.isStreaming = false := by
  unfold handleSendMessage
  simp only [hc, hm, hl]
  refine ⟨by trivial, by trivial, ?_⟩
  apply clearStreaming_all
  intro msg hmem hid
  obtain ⟨m, hmbase, hideq, hstreq⟩ :=
    mem_applyChunks modelMsgId chunks ""
      (s.chatHistory ++ [mkUserMsg userMsgId text, initialModelMsg modelMsgId]) msg hmem
  rw [hstreq]
  rcases List.mem_append.1 hmbase with hpre | hnew
  · exact hclean m hpre
  · simp only [List.mem_cons, List.not_mem_nil, or_false] at hnew
    rcases hnew with rfl | rfl
    · rfl
    · exact absurd hideq hid

/-- C6 witness: a concrete run with one chunk and a failing stream. -/
theorem sendMessage_single_stream_witness :
    (handleSendMessage demoState false "hi" "u1" "m1" ["tok"] true).isStreamingDuringCall
        = true ∧
    (handleSendMessage demoState false "hi" "u1" "m1" ["tok"] true).isStreamingAfter
        = false ∧
    ∀ msg ∈ (handleSendMessage demoState false "hi" "u1" "m1" ["tok"] true).state.chatHistory,
      msg.isStreaming = false :=
  sendMessage_single_stream demoState false "hi" "u1" "m1" ["tok"] true
    demoCourse demoModule demoLesson (by decide) (by decide) (by decide) (by decide)

/-- C7: when `generateCourseCurriculum` throws (and the guard passed), the
run is atomic: the resulting state is the pre-call state except that
`isLoading` is `false` — courses, active ids, view and chat history are all
unchanged — and the alert fires. -/
theorem generate_error_atomic (s : AppState) (topic greetingId : String)
    (ht : jsTrim topic ≠ "") :
    (handleGenerateCurriculum s topic (Except.error ()) greetingId).state =
      { s with isLoading := false } ∧
    (handleGenerateCurriculum s topic (Except.error ()) greetingId).alerted = true := by
  unfold handleGenerateCurriculum
  rw [if_neg ht]
  exact ⟨rfl, rfl⟩

/-- C7 witness: the error run on a concrete non-blank topic. -/
theorem generate_error_atomic_witness :
    (handleGenerateCurriculum demoState "nn" (Except.error ()) "g1").state =
      { demoState with isLoading := false } :=
  (generate_error_atomic demoState "nn" "g1" (by decide)).1

/-- C8: the interface guards are pure: a `handleSendMessage` call without an
active course, module or lesson, and a `handleGenerateCurriculum` call
whose topic trims to the empty string, both leave the state (and the
streaming flag) exactly as they were and never reach the service. -/
theorem guards_leave_state_unchanged (s : AppState) (flagIn : Bool)
    (text userMsgId modelMsgId topic greetingId : String) (chunks : List String)
    (streamFails : Bool) (result : Except Unit Course) :
    ((activeCourse s = none ∨ activeModule s = none ∨ activeLesson s = none) →
      handleSendMessage s flagIn text userMsgId modelMsgId chunks streamFails =
        { state := s, isStreamingDuringCall := flagIn, isStreamingAfter := flagIn,
          alerted := false, apiCalled := false }) ∧
    (jsTrim topic = "" →
      handleGenerateCurriculum s topic result greetingId =
        { state := s, alerted := false, apiCalled := false }) := by
  constructor
  · intro hguard
    have hl : activeLesson s = none := by
      rcases hguard with h | h | h
      · simp [activeLesson, activeModule, h]
      · simp [activeLesson, h]
      · exact h
    unfold handleSendMessage
    simp only [hl]
    cases hac : activeCourse s <;> cases ham : activeModule s <;> rfl
  · intro ht
    unfold handleGenerateCurriculum
    rw [if_pos ht]

/-- C8 witness: both guards on concrete inputs — the initial state has no
active course, and a whitespace-only topic trims to empty. -/
theorem guards_leave_state_unchanged_witness :
    handleSendMessage initialState false "hi" "u1" "m1" ["x"] false =
      { state := initialState, isStreamingDuringCall := false,
        isStreamingAfter := false, alerted := false, apiCalled := false } ∧
    handleGenerateCurriculum initialState " " (Except.error ()) "g1" =
      { state := initialState, alerted := false, apiCalled := false } :=
  ⟨(guards_leave_state_unchanged initialState false "hi" "u1" "m1" " " "g1" ["x"]
      false (Except.error ())).1 (Or.inl (by decide)),
   (guards_leave_state_unchanged initialState false "hi" "u1" "m1" " " "g1" ["x"]
      false (Except.error ())).2 (by decide)⟩

/-! ## View lemmas feeding the reachability invariant -/

theorem generate_view (s : AppState) (topic : String) (result : Except Unit Course)
    (greetingId : String) :
    (handleGenerateCurriculum s topic result greetingId).state.currentView
        = s.currentView ∨
    (handleGenerateCurriculum s topic result greetingId).state.currentView
        = ViewState.course := by
  unfold handleGenerateCurriculum
  split
  · exact Or.inl rfl
  · split
    · exact Or.inl rfl
    · split
      · exact Or.inr rfl
      · exact Or.inr rfl

theorem selectLesson_view (s : AppState) (moduleIndex lessonIndex : Nat)
    (msgId : String) :
    (handleSelectLesson s moduleIndex lessonIndex msgId).state.currentView
      = s.currentView := by
  unfold handleSelectLesson
  split
  · rfl
  · split
    · rfl
    · split <;> rfl

theorem sendMessage_view (s : AppState) (flagIn : Bool)
    (text userMsgId modelMsgId : String) (chunks : List String) (streamFails : Bool) :
    (handleSendMessage s flagIn text userMsgId modelMsgId chunks
        streamFails).state.currentView = s.currentView := by
  unfold handleSendMessage
  split <;> rfl

theorem takeQuiz_view (s : AppState) (moduleIndex : Nat) (result : Except Unit Quiz) :
    (handleTakeQuiz s moduleIndex result).state.currentView = s.currentView := by
  unfold handleTakeQuiz
  split
  · rfl
  · split
    · rfl
    · split <;> rfl

/-- Any single transition either keeps the view or moves it to `course` or
`landing` — never to `quiz`. -/
theorem step_view (s t : AppState) (hstep : Step s t) :
    t.currentView = s.currentView ∨ t.currentView = ViewState.landing ∨
      t.currentView = ViewState.course := by
  match hstep with
  | Step.generate s topic result greetingId =>
    rcases generate_view s topic result greetingId with h1 | h1
    · exact Or.inl h1
    · exact Or.inr (Or.inr h1)
  | Step.selectLesson s moduleIndex lessonIndex msgId =>
    exact Or.inl (selectLesson_view s moduleIndex lessonIndex msgId)
  | Step.sendMessage s flagIn text userMsgId modelMsgId chunks streamFails =>
    exact Or.inl (sendMessage_view s flagIn text userMsgId modelMsgId chunks streamFails)
  | Step.takeQuiz s moduleIndex result =>
    exact Or.inl (takeQuiz_view s moduleIndex result)
  | Step.homeClick s => exact Or.inr (Or.inl rfl)
  | Step.closeQuiz s => exact Or.inl rfl

/-- C9: although `ViewState` admits the value `quiz`, no handler ever
assigns it: in every state reachable from the initial state `currentView`
is `landing` or `course` (so in particular never `quiz`; the quiz is
surfaced only through `activeQuiz`). -/
theorem reachable_view (s : AppState) (h : Reachable s) :
    s.currentView = ViewState.landing ∨ s.currentView = ViewState.course := by
  induction h with
  | init => exact Or.inl rfl
  | step hr hstep ih =>
    rcases step_view _ _ hstep with h1 | h1 | h1
    · rw [h1]
      exact ih
    · rw [h1]
      exact Or.inl rfl
    · rw [h1]
      exact Or.inr rfl

/-- C9 witness: the invariant at the initial state. -/
theorem reachable_view_witness :
    initialState.currentView = ViewState.landing ∨
    initialState.currentView = ViewState.course :=
  reachable_view initialState Reachable.init

/-- C10: the unguarded `course.modules[0].lessons[0]` in the greeting is
safe under the precondition that the generated course has a first module
with a first lesson: the greeting evaluates (no `none`/error branch), and a
successful generation run raises no alert. -/
theorem greeting_indexing_safe (s : AppState) (topic greetingId : String)
    (course : Course) (m0 : Module) (l0 : Lesson)
    (hm : course.modules[0]? = some m0) (hl : m0.lessons[0]? = some l0) :
    greetingContent course = some (greetingText course l0) ∧
    (jsTrim topic ≠ "" →
      (handleGenerateCurriculum s topic (Except.ok course) greetingId).alerted
        = false) := by
  have hg : greetingContent course = some (greetingText course l0) := by
    unfold greetingContent
    simp only [hm, hl]
  refine ⟨hg, ?_⟩
  intro ht
  unfold handleGenerateCurriculum
  rw [if_neg ht]
  simp only [hg]

/-- C10 witness: the greeting indexing of the concrete course is safe. -/
theorem greeting_indexing_safe_witness :
    greetingContent demoCourse = some (greetingText demoCourse demoLesson) ∧
    (handleGenerateCurriculum demoState "nn" (Except.ok demoCourse) "g1").alerted
      = false :=
  ⟨(greeting_indexing_safe demoState "nn" "g1" demoCourse demoModule demoLesson
      (by decide) (by decide)).1,
   (greeting_indexing_safe demoState "nn" "g1" demoCourse demoModule demoLesson
      (by decide) (by decide)).2 (by decide)⟩

end MachineLLM
